import Mathlib

/-!
Shallow embedding of the LegacyAuthentics site's API route handlers and the
client-side upload flow, translated from the TypeScript source:

* `GET /api/verify`  — verify route: compares the `code` query parameter
  against the hard-coded literal `VALID123`.
* `POST /api/upload` — upload route: builds an S3 `PutObjectCommand` for a
  fresh key `uploads/<uuid>` and asks the presigner for a signed URL with
  `expiresIn := 60`.
* `GET /api/report`  — report route: builds a fixed one-page PDF document
  description and saves it, wrapped in a try/catch that yields a plain-text
  500 on failure.
* the client `handleUpload` function on the upload page, which destructures
  `uploadUrl` and `key` from the issuer's JSON response and performs a `PUT`
  with the file's declared content type or a generic fallback.

Per-invocation ambient state available to a handler (here only the result of
`crypto.randomUUID()`) is modelled by `RequestWorld`; the external SDKs
(the S3 presigner and the pdf-lib save routine) are modelled as pure function
parameters, so that determinism claims are about independence from the
per-invocation world rather than trivialities.
-/

/-- A JSON value, as far as the routes of this site need: the routes only ever
return objects whose fields are strings or booleans. -/
inductive Json where
  | str : String → Json
  | bool : Bool → Json
  | obj : List (String × Json) → Json

/-- Field lookup in a JSON object (`none` on non-objects and missing fields),
modelling property access / destructuring on a parsed response body. -/
def Json.getField : Json → String → Option Json
  | Json.obj fields, k => fields.lookup k
  | _, _ => none

/-- A JSON-bodied HTTP response as produced by `NextResponse.json`; the
default status is 200 and neither handler overrides it. -/
structure JsonResponse where
  status : Nat
  body : Json

/-- Per-invocation ambient state a route handler can observe: the UUID that
`crypto.randomUUID()` returns during this invocation. -/
structure RequestWorld where
  uuid : String

/-! ### Verify route (`src/unnamed/part_001`, `GET`) -/

/-- `GET /api/verify`: `req.nextUrl.searchParams.get('code')` yields a string
or `null` (here `Option String`); only strict equality with `'VALID123'`
selects the valid branch. Translated from the verify route's `GET`. -/
def verifyGET (_w : RequestWorld) (code : Option String) : JsonResponse :=
  if code = some "VALID123" then
    { status := 200,
      body := Json.obj [("valid", Json.bool true), ("issuedAt", Json.str "2024-01-01")] }
  else
    { status := 200, body := Json.obj [("valid", Json.bool false)] }

/-! ### Upload route (`src/unnamed/part_001`, `POST`) -/

/-- The configuration the upload route reads from the environment
(`process.env.AWS_BUCKET_NAME`; the region configures the client only). -/
structure UploadEnv where
  awsBucketName : String

/-- The `PutObjectCommand` constructor argument object. -/
structure PutObjectCommand where
  Bucket : String
  Key : String
  ContentType : String

/-- The object key generated per invocation: `'uploads/' + crypto.randomUUID()`. -/
def uploadKey (uuid : String) : String := "uploads/" ++ uuid

/-- The command the upload route builds for the presigner. -/
def uploadCommand (env : UploadEnv) (uuid : String) : PutObjectCommand :=
  { Bucket := env.awsBucketName
    Key := uploadKey uuid
    ContentType := "application/octet-stream" }

/-- The full request the route hands to `getSignedUrl`: the command plus the
options object `{ expiresIn: 60 }`. -/
structure SignRequest where
  command : PutObjectCommand
  expiresIn : Nat

/-- What the upload route passes to `getSignedUrl` in the world `w`. -/
def uploadSignRequest (env : UploadEnv) (uuid : String) : SignRequest :=
  { command := uploadCommand env uuid, expiresIn := 60 }

/-- `POST /api/upload`: sign the fresh key's put command and return
`NextResponse.json({ uploadUrl })`. The presigner `getSignedUrl` is an
external SDK call, modelled as a function parameter. -/
def uploadPOST (env : UploadEnv) (signer : SignRequest → String)
    (w : RequestWorld) : JsonResponse :=
  { status := 200,
    body := Json.obj [("uploadUrl", Json.str (signer (uploadSignRequest env w.uuid)))] }

/-! ### Client-side uploader (`src/unnamed/part_002`, `handleUpload`) -/

/-- A user-selected `File` as the uploader consumes it: only its declared
content type (`file.type`, the empty string when the browser knows none)
matters to the embedded logic. -/
structure ClientFile where
  type : String

/-- The direct-to-storage `PUT` request the client builds: target URL and the
`Content-Type` header `file.type || 'application/octet-stream'` (the `||`
falls through exactly on the empty string, `file.type` being a string). -/
structure PutRequest where
  url : String
  contentType : String

/-- The `PUT` the client performs against the signed URL, from `handleUpload`. -/
def clientPutRequest (uploadUrl : String) (file : ClientFile) : PutRequest :=
  { url := uploadUrl
    contentType := if file.type = "" then "application/octet-stream" else file.type }

/-- The `key` the client destructures from the issuer's JSON response
(`const { uploadUrl, key } = await res.json()`): absent fields come out as
`none` (JavaScript `undefined`). -/
def clientDestructuredKey (respBody : Json) : Option Json :=
  respBody.getField "key"

/-! ### Report route (`src/app/api/report/route.ts`, `GET`) -/

/-- One `page.drawText` call: the text and its options object. -/
structure DrawOp where
  text : String
  x : Rat
  y : Rat
  size : Rat
  maxWidth : Option Rat
  lineHeight : Option Rat

/-- The document description the handler builds before `pdfDoc.save()`:
page size, the one embedded font, and the sequence of draw calls. -/
structure PdfDoc where
  pageWidth : Rat
  pageHeight : Rat
  fontName : String
  ops : List DrawOp

/-- The pdf-lib surface the report route uses, modelled as pure functions:
`font.widthOfTextAtSize` and `pdfDoc.save()`, the latter `Except`-valued so
that an internal generation failure (anything the `try` block catches) is
representable. -/
structure PdfLib where
  widthOfTextAtSize : String → Rat → Rat
  save : PdfDoc → Except String (List Nat)

/-- The title string drawn in the header. -/
def reportTitle : String := "Sample Autograph Verification Report"

/-- The body constant of the report route. In the source it is a single-quoted
string containing the two-character sequences backslash-`n` (written `\\n`
there), and it is split on that same two-character sequence. -/
def reportBodyText : String :=
  "This sample report illustrates the format of your certificate.\\n\\nYour authentic autograph will be thoroughly analyzed by our team of experts using forensic techniques. The report includes details about ink consistency, paper age, provenance, and comparative signature analysis.\\n\\nEach report is digitally signed and assigned a unique verification code. Third parties can confirm authenticity using our verification page."

/-- The body-drawing loop: for each line, draw at `x = 50` and the current
`y`, with `maxWidth = width - 100` and `lineHeight = fontSize * 1.4`, then
decrement `y` by `fontSize * 1.4`. -/
def bodyDrawOps (pageW fontSize : Rat) : List String → Rat → List DrawOp
  | [], _ => []
  | line :: rest, y =>
      { text := line, x := 50, y := y, size := fontSize
        maxWidth := some (pageW - 100)
        lineHeight := some (fontSize * (14 / 10)) }
        :: bodyDrawOps pageW fontSize rest (y - fontSize * (14 / 10))

/-- The fixed document the handler describes: a Letter-size page
(`[612, 792]`), Helvetica, a centered 24-point title at `y = height - 80`,
then the body lines from `y = height - 130` downwards. -/
def reportDoc (widthOfTextAtSize : String → Rat → Rat) : PdfDoc :=
  let width : Rat := 612
  let height : Rat := 792
  let titleSize : Rat := 24
  let titleWidth := widthOfTextAtSize reportTitle titleSize
  let fontSize : Rat := 12
  { pageWidth := width
    pageHeight := height
    fontName := "Helvetica"
    ops :=
      { text := reportTitle, x := (width - titleWidth) / 2, y := height - 80,
        size := titleSize, maxWidth := none, lineHeight := none }
        :: bodyDrawOps width fontSize (reportBodyText.splitOn "\\n") (height - 130) }

/-- A general HTTP response body: binary bytes or plain text. -/
inductive HttpBody where
  | bytes : List Nat → HttpBody
  | text : String → HttpBody

/-- A general HTTP response with explicit status and headers. -/
structure HttpResponse where
  status : Nat
  headers : List (String × String)
  body : HttpBody

/-- The success response of the report route: the saved bytes with the two
explicit headers (status defaults to 200). -/
def pdfSuccessResponse (pdfBytes : List Nat) : HttpResponse :=
  { status := 200
    headers := [("Content-Type", "application/pdf"),
                ("Content-Disposition", "attachment; filename=\"sample-report.pdf\"")]
    body := HttpBody.bytes pdfBytes }

/-- The catch-branch response: `new NextResponse('Failed to generate report',
{ status: 500 })`, with no explicit headers. -/
def reportErrorResponse : HttpResponse :=
  { status := 500, headers := [], body := HttpBody.text "Failed to generate report" }

/-- The outcome of `pdfDoc.save()` for the document this handler builds. -/
def reportSaveResult (lib : PdfLib) : Except String (List Nat) :=
  lib.save (reportDoc lib.widthOfTextAtSize)

/-- `GET /api/report`: build the fixed document, save it, and return it as a
PDF attachment; any caught generation error yields the plain-text 500. The
handler reads nothing from the per-invocation world. -/
def reportGET (lib : PdfLib) (_w : RequestWorld) : HttpResponse :=
  match reportSaveResult lib with
  | Except.ok pdfBytes => pdfSuccessResponse pdfBytes
  | Except.error _ => reportErrorResponse

/-! ### Helper lemmas -/

/-- Prefixing with `uploads/` is injective in the UUID. -/
theorem uploadKey_inj {u1 u2 : String} (h : uploadKey u1 = uploadKey u2) :
    u1 = u2 := by
  have hd := congrArg String.data h
  simp only [uploadKey, String.data_append] at hd
  exact String.ext (List.append_cancel_left hd)

/-! ### Claim theorems -/

/-- C1: For the single accepted literal code `VALID123`, the verify route
returns status 200 with body `{ valid: true, issuedAt: "2024-01-01" }`, and
deterministically so: any two invocations with that exact code — whatever the
per-invocation world — yield the same response. -/
theorem verify_valid_code_deterministic (w1 w2 : RequestWorld) :
    verifyGET w1 (some "VALID123") =
      { status := 200,
        body := Json.obj [("valid", Json.bool true), ("issuedAt", Json.str "2024-01-01")] }
    ∧ verifyGET w1 (some "VALID123") = verifyGET w2 (some "VALID123") :=
  ⟨rfl, rfl⟩

/-- C2: For every code string different from `VALID123` (in particular codes
differing only in case), the verify route returns `{ valid: false }` and the
response body has no `issuedAt` field. -/
theorem verify_invalid_code (w : RequestWorld) (c : String) (h : c ≠ "VALID123") :
    verifyGET w (some c) = { status := 200, body := Json.obj [("valid", Json.bool false)] }
    ∧ (verifyGET w (some c)).body.getField "issuedAt" = none := by
  have hc : (some c = some "VALID123") = False := by
    simp only [Option.some.injEq, eq_iff_iff, iff_false]
    exact h
  constructor
  · simp only [verifyGET, hc, if_false]
  · simp only [verifyGET, hc, if_false]
    rfl

/-- Witness for C2 at the concrete lower-case code `valid123`. -/
theorem verify_invalid_code_witness :
    verifyGET ⟨"u"⟩ (some "valid123") =
      { status := 200, body := Json.obj [("valid", Json.bool false)] }
    ∧ (verifyGET ⟨"u"⟩ (some "valid123")).body.getField "issuedAt" = none :=
  verify_invalid_code ⟨"u"⟩ "valid123" (by decide)

/-- C9: When the `code` query parameter is absent (`searchParams.get` returns
`null`), the verify route still answers with an ordinary 200 response whose
body is `{ valid: false }` — the same response as for a wrong code — with no
`issuedAt` field and no error status. -/
theorem verify_missing_code (w : RequestWorld) :
    verifyGET w none = { status := 200, body := Json.obj [("valid", Json.bool false)] }
    ∧ (verifyGET w none).body.getField "issuedAt" = none
    ∧ verifyGET w none = verifyGET w (some "anything-else") :=
  ⟨rfl, rfl, rfl⟩

/-- C3: The upload route's JSON response always carries an `uploadUrl` field
and never a `key` field, so the `key` the client-side `handleUpload`
destructures from that response is always absent. -/
theorem upload_response_has_no_key (env : UploadEnv) (signer : SignRequest → String)
    (w : RequestWorld) :
    (uploadPOST env signer w).body.getField "uploadUrl" =
      some (Json.str (signer (uploadSignRequest env w.uuid)))
    ∧ (uploadPOST env signer w).body.getField "key" = none
    ∧ clientDestructuredKey (uploadPOST env signer w).body = none :=
  ⟨rfl, rfl, rfl⟩

/-- C5: On every invocation the upload route asks the presigner for a signed
URL with the fixed option `expiresIn = 60`; no caller-supplied input occurs in
the handler, so nothing can affect it. -/
theorem upload_expiry_fixed (env : UploadEnv) (w : RequestWorld) :
    (uploadSignRequest env w.uuid).expiresIn = 60 :=
  rfl

/-- C6: The signed request targets exactly the key `uploads/<uuid>`, and that
key construction is injective in the UUID: two invocations issue equal keys
precisely when the random-identifier generator produced equal UUID strings, so
key uniqueness holds exactly when generator uniqueness holds. -/
theorem upload_key_unique_iff_uuid_unique (env : UploadEnv) (w1 w2 : RequestWorld) :
    (uploadSignRequest env w1.uuid).command.Key = uploadKey w1.uuid
    ∧ (uploadKey w1.uuid = uploadKey w2.uuid ↔ w1.uuid = w2.uuid)
    ∧ (w1.uuid ≠ w2.uuid → uploadKey w1.uuid ≠ uploadKey w2.uuid) := by
  refine ⟨rfl, ⟨fun h => uploadKey_inj h, fun h => by rw [h]⟩, ?_⟩
  intro hne h
  exact hne (uploadKey_inj h)

/-- Witness for C6 at two concrete distinct UUID strings. -/
theorem upload_key_unique_witness :
    uploadKey "123e4567-e89b" ≠ uploadKey "ffffffff-0000" :=
  (upload_key_unique_iff_uuid_unique ⟨"bucket"⟩ ⟨"123e4567-e89b"⟩ ⟨"ffffffff-0000"⟩).2.2
    (by decide)

/-- C8: The client uploader's direct `PUT` to the signed URL carries the
file's declared content type when that is non-empty, and the fallback
`application/octet-stream` when the declared type is the empty string. -/
theorem client_put_content_type (uploadUrl : String) (file : ClientFile) :
    (file.type ≠ "" → (clientPutRequest uploadUrl file).contentType = file.type)
    ∧ (file.type = "" →
        (clientPutRequest uploadUrl file).contentType = "application/octet-stream") := by
  constructor
  · intro h
    simp only [clientPutRequest, if_neg h]
  · intro h
    simp only [clientPutRequest, if_pos h]

/-- Witness for C8 at a PNG file and at a file with an empty declared type. -/
theorem client_put_content_type_witness :
    (clientPutRequest "https://example" ⟨"image/png"⟩).contentType = "image/png"
    ∧ (clientPutRequest "https://example" ⟨""⟩).contentType = "application/octet-stream" :=
  ⟨(client_put_content_type "https://example" ⟨"image/png"⟩).1 (by decide),
   (client_put_content_type "https://example" ⟨""⟩).2 rfl⟩

/-- C10: The content type the issuer binds into the signed put command is the
constant `application/octet-stream` on every invocation, while the client's
later `PUT` header can differ from it (for instance for a PNG file). -/
theorem issuer_content_type_constant :
    (∀ (env : UploadEnv) (w : RequestWorld),
      (uploadSignRequest env w.uuid).command.ContentType = "application/octet-stream")
    ∧ (∃ (uploadUrl : String) (file : ClientFile),
        (clientPutRequest uploadUrl file).contentType ≠ "application/octet-stream") :=
  ⟨fun _ _ => rfl, ⟨"https://example", ⟨"image/png"⟩, by decide⟩⟩

/-- C4: The report route's output does not depend on the per-invocation
world: any two successful invocations (status 200) return byte-identical
bodies, and the successful response's `Content-Type` header is exactly
`application/pdf`. -/
theorem report_deterministic (lib : PdfLib) (w1 w2 : RequestWorld)
    (h1 : (reportGET lib w1).status = 200) :
    (reportGET lib w1).body = (reportGET lib w2).body
    ∧ (reportGET lib w1).headers.lookup "Content-Type" = some "application/pdf" := by
  constructor
  · rfl
  · unfold reportGET at h1 ⊢
    cases hs : reportSaveResult lib with
    | ok pdfBytes => rfl
    | error e =>
        rw [hs] at h1
        simp [reportErrorResponse] at h1

/-- C7: If any internal error occurs while generating the report (the save of
the fixed document fails), the route returns the plain-text 500 response with
body `Failed to generate report`; and only then — every non-error invocation
returns the PDF attachment response built from the saved bytes. -/
theorem report_error_handling (lib : PdfLib) (w : RequestWorld) :
    ((∃ e, reportSaveResult lib = Except.error e) → reportGET lib w = reportErrorResponse)
    ∧ (∀ pdfBytes, reportSaveResult lib = Except.ok pdfBytes →
        reportGET lib w = pdfSuccessResponse pdfBytes)
    ∧ ((reportGET lib w).status = 500 ↔ ∃ e, reportSaveResult lib = Except.error e) := by
  refine ⟨?_, ?_, ?_⟩
  · rintro ⟨e, he⟩
    unfold reportGET
    rw [he]
  · intro b hb
    unfold reportGET
    rw [hb]
  · unfold reportGET
    cases hs : reportSaveResult lib with
    | ok b => simp [pdfSuccessResponse]
    | error e => simp [reportErrorResponse]

/-- A concrete pdf-lib model whose save succeeds with the four PDF signature
bytes `%PDF`; used to witness the report claims. -/
def okLib : PdfLib :=
  { widthOfTextAtSize := fun _ _ => 0
    save := fun _ => Except.ok [37, 80, 68, 70] }

/-- A concrete pdf-lib model whose save always fails. -/
def errLib : PdfLib :=
  { widthOfTextAtSize := fun _ _ => 0
    save := fun _ => Except.error "boom" }

/-- Witness for C4: two successful invocations under `okLib`, in different
worlds, have equal bodies and carry `Content-Type: application/pdf`. -/
theorem report_deterministic_witness :
    (reportGET okLib ⟨"world-a"⟩).body = (reportGET okLib ⟨"world-b"⟩).body
    ∧ (reportGET okLib ⟨"world-a"⟩).headers.lookup "Content-Type" =
        some "application/pdf" :=
  report_deterministic okLib ⟨"world-a"⟩ ⟨"world-b"⟩ rfl

/-- Witness for C7: under the always-failing `errLib` the route returns the
plain-text 500, and under `okLib` it returns the PDF attachment. -/
theorem report_error_handling_witness :
    reportGET errLib ⟨"w"⟩ = reportErrorResponse
    ∧ reportGET okLib ⟨"w"⟩ = pdfSuccessResponse [37, 80, 68, 70] :=
  ⟨(report_error_handling errLib ⟨"w"⟩).1 ⟨"boom", rfl⟩,
   (report_error_handling okLib ⟨"w"⟩).2.1 [37, 80, 68, 70] rfl⟩
